import Mathlib

/-!
Verification of the seo_suite backend's fallback-orchestration pipeline.

This file shallowly embeds the relevant parts of the repository
(`backend/services/keyword_suggestion.py`, `backend/services/volume_competition.py`,
`backend/services/langchain_analysis.py`, `backend/services/serp_analysis.py`,
`backend/services/orchestrator.py`, `backend/schemas/keyword_schemas.py`) as Lean
definitions and proves or refutes the frozen specification claims about them.

Conventions of the embedding:
* Network calls are modelled by oracle values carried in an environment record:
  each oracle holds the outcome of the single call the code under scrutiny makes
  (an `Except` for adapters that map HTTP errors to typed exceptions).
* Python floats are modelled as rationals; Python ints as `Int`/`Nat`.
* Python's built-in string `hash` (process-seeded) is a parameter `h : String → Int`;
  Python `%` with a positive modulus agrees with `Int.emod`.
* Python `//` (floor division) is `Int.fdiv`.
* `try/except` is modelled with `Except`, caught exactly where the source catches.
-/

/-! ## Data model (backend/schemas/keyword_schemas.py) -/

/-- `CompetitionLevel` enum (keyword_schemas.py lines 24-29). -/
inductive CompetitionLevel where
  | low | medium | high | unknown
deriving DecidableEq, Repr

/-- `SearchIntent` enum (keyword_schemas.py lines 6-12). -/
inductive SearchIntent where
  | informational | commercial | transactional | navigational | unknown
deriving DecidableEq, Repr

/-- `DifficultyLevel` enum (keyword_schemas.py lines 15-21). -/
inductive DifficultyLevel where
  | very_easy | easy | medium | hard | very_hard
deriving DecidableEq, Repr

/-- `KeywordSuggestion` pydantic model (keyword_schemas.py lines 69-77).
Scores are rationals standing for Python floats. -/
structure KeywordSuggestion where
  keyword : String
  search_volume : Option Int := none
  competition : Option CompetitionLevel := some .unknown
  competition_score : Option ℚ := none
  cpc : Option ℚ := none
  trend : Option String := none
  source : String := "api"
deriving DecidableEq, Repr

/-- Minimal JSON value type standing for what Python's `json.loads` returns
(dict / list / str / number / bool / None).  Numbers are collapsed to `ℚ`,
matching Python's numeric cross-type equality. -/
inductive Json where
  | null
  | bool (b : Bool)
  | num (q : ℚ)
  | str (s : String)
  | arr (elems : List Json)
  | obj (fields : List (String × Json))

/-- `KeywordMetrics` pydantic model (keyword_schemas.py lines 80-96).
`difficulty_score` is declared `Field(None, ge=0, le=100)` in the schema, but the
orchestrator assigns the raw parsed LLM value to it after construction and
pydantic does not validate assignments (no `validate_assignment` config), so the
field is embedded as a raw `Json` value to capture exactly what gets stored. -/
structure KeywordMetrics where
  keyword : String
  search_volume : Option Int := none
  competition : Option CompetitionLevel := some .unknown
  competition_score : Option ℚ := none
  cpc : Option ℚ := none
  intent : Option SearchIntent := some .unknown
  difficulty : Option DifficultyLevel := none
  difficulty_score : Option Json := none
  trending : Option Bool := none
  seasonality : Option String := none
  related_keywords : List String := []

/-- `KeywordCluster` model (keyword_schemas.py lines 99-107), as built by
`LangChainAnalysisService.cluster_keywords`: the `cluster_id` / `cluster_name` /
`primary_keyword` / `recommendation` fields receive raw values extracted from
the LLM's JSON, so they are embedded as `Json` (pydantic's coercion of those
scalars is orthogonal to every claim below). -/
structure KeywordCluster where
  cluster_id : Json
  cluster_name : Json
  primary_keyword : Json
  keywords : List Json
  intent : SearchIntent
  avg_search_volume : Option Int
  recommendation : Json

/-! ## Error taxonomy (backend/exceptions.py) -/

/-- Typed adapter failures: `APIKeyMissingError`, `APIRateLimitError`,
`APIRequestError` (exceptions.py), plus a catch-all for other exceptions. -/
inductive ApiError where
  | apiKeyMissing (msg : String)
  | rateLimited (msg : String)
  | requestFailed (msg : String)
  | other (msg : String)
deriving DecidableEq, Repr

/-- A Python-level exception that escapes `get_suggestions` uncaught: the
`AttributeError` raised at keyword_suggestion.py line 75, where
`settings.has_serper()` is called although `Settings` (config.py lines 5-60)
defines only `has_google_ads_credentials`, `has_serpapi` and `has_dataforseo`
- no `has_serper` - and its `extra="ignore"` config attaches nothing
dynamically. -/
inductive PyError where
  | attributeError (msg : String)
deriving DecidableEq, Repr

/-! ## Keyword suggestion service (backend/services/keyword_suggestion.py) -/

/-- The tiers of the suggestion fallback chain, used to record which tiers a
run of `get_suggestions` actually consulted. -/
inductive Tier where
  | dataforseo | serper | googleAutocomplete | duckduckgo | generation
deriving DecidableEq, Repr

/-- Which suggestion providers are configured.  `Settings` (config.py)
defines `has_dataforseo()`; it defines no `has_serper` method, so Serper
availability is not part of any reachable configuration - the
`settings.has_serper()` call site raises instead (see `getSuggestions`). -/
structure SuggestConfig where
  hasDataforseo : Bool
deriving DecidableEq, Repr

/-- Oracle outcomes for the outbound calls the suggestion service can make,
indexed by the seed keyword of the request (each run issues at most one call
per adapter).  `dataforseo` is the result of `_get_dataforseo_suggestions`
(typed error on failure); `googleAc`/`ddgAc` are the autocomplete payload
texts (`.error` when the request or JSON decode fails), DuckDuckGo items
being `item.get("phrase")` values, hence `Option String`.
`_get_serper_suggestions` needs no oracle: its only call site (line 77) sits
behind the `settings.has_serper()` check that raises, so it is never
invoked. -/
structure SuggestEnv where
  dataforseo : String → Except ApiError (List KeywordSuggestion)
  googleAc : String → Except ApiError (List String)
  ddgAc : String → Except ApiError (List (Option String))

/-- The modifier word list of `_generate_keyword_variations`
(keyword_suggestion.py lines 206-210). -/
def modifiers : List String :=
  ["best", "top", "guide", "tutorial", "free", "online",
   "near me", "cheap", "review", "vs", "tips", "strategy",
   "tools", "software", "services", "comparison"]

/-- Python's `str.strip()` with no arguments: remove leading and trailing
whitespace. -/
def pyStrip (s : String) : String :=
  (((s.toList.dropWhile Char.isWhitespace).reverse.dropWhile Char.isWhitespace).reverse).asString

/-- Python's `str.upper()` (ASCII case mapping suffices for the enum names
involved). -/
def pyUpper (s : String) : String :=
  (s.toList.map Char.toUpper).asString

/-- The prefixed variation record of `_generate_keyword_variations`
(keyword_suggestion.py lines 214-221): `f"{modifier} {seed}"`, stripped. -/
def preRec (seed m : String) : KeywordSuggestion :=
  { keyword := pyStrip (m ++ " " ++ seed), source := "generated_prefix" }

/-- The suffixed variation record (lines 223-231): `f"{seed} {modifier}"`,
not stripped. -/
def sufRec (seed m : String) : KeywordSuggestion :=
  { keyword := seed ++ " " ++ m, source := "generated" }

/-- Loop body of `_generate_keyword_variations` (lines 212-231): for each
modifier append the stripped prefixed variation unconditionally, then the
suffixed variation only while still short of `limit`. -/
def genVarsAux (seed : String) (limit : Nat) :
    List String → List KeywordSuggestion → List KeywordSuggestion
  | [], acc => acc
  | m :: ms, acc =>
    let acc1 := acc ++ [preRec seed m]
    let acc2 := if acc1.length < limit then acc1 ++ [sufRec seed m] else acc1
    genVarsAux seed limit ms acc2

/-- `_generate_keyword_variations` (keyword_suggestion.py lines 197-233):
iterates over `modifiers[:limit]` and returns `variations[:limit]`. -/
def generateKeywordVariations (seed : String) (limit : Nat) : List KeywordSuggestion :=
  (genVarsAux seed limit (modifiers.take limit) []).take limit

/-- First-seen-wins de-duplication by exact keyword text, mirroring the
`suggestions_map` dict insertions of `_get_fallback_suggestions`
(lines 145-184): an incoming suggestion is dropped when its text is already
present. -/
def dedupByKeyword (l : List KeywordSuggestion) : List KeywordSuggestion :=
  l.foldl (fun acc s => if acc.any (fun t => t.keyword = s.keyword) then acc else acc ++ [s]) []

/-- The merged, de-duplicated Google + DuckDuckGo autocomplete suggestions
(`list(suggestions_map.values())`, line 186).  A failed call contributes
nothing (the `except` branches at lines 165-166 and 183-184); DuckDuckGo items
with a missing or empty `phrase` are skipped (`if text and ...`, line 179). -/
def autoMerged (env : SuggestEnv) (seed : String) : List KeywordSuggestion :=
  let gTexts := match env.googleAc seed with | .ok l => l | .error _ => []
  let dTexts := ((match env.ddgAc seed with | .ok l => l | .error _ => []).filterMap id).filter
    (fun t => t ≠ "")
  dedupByKeyword
    (gTexts.map (fun t => { keyword := t, source := "google_autocomplete" })
      ++ dTexts.map (fun t => { keyword := t, source := "duckduckgo_autocomplete" }))

/-- `_get_fallback_suggestions` (keyword_suggestion.py lines 136-195): merge the
two autocomplete sources; when fewer than 10 results, extend with
`_generate_keyword_variations(seed, max(0, limit - len(suggestions)))`
(`Nat` subtraction is Python's `max(0, limit - len)`); return the first
`limit`.  Also reports which tiers were consulted. -/
def getFallbackSuggestions (env : SuggestEnv) (seed : String) (limit : Nat) :
    List KeywordSuggestion × List Tier :=
  let merged := autoMerged env seed
  if merged.length < 10 then
    ((merged ++ generateKeywordVariations seed (limit - merged.length)).take limit,
      [Tier.googleAutocomplete, Tier.duckduckgo, Tier.generation])
  else
    (merged.take limit, [Tier.googleAutocomplete, Tier.duckduckgo])

/-- The cache key of `get_suggestions` (line 56):
`f"{seed_keyword}_{language}_{country}_{limit}"`. -/
def cacheKey (seed lang country : String) (limit : Nat) : String :=
  seed ++ "_" ++ lang ++ "_" ++ country ++ "_" ++ toString limit

/-- The in-memory cache `self.cache`, as an association list with unique keys. -/
abbrev SuggestCache := List (String × List KeywordSuggestion)

/-- Python dict lookup on the cache. -/
def lookupCache (c : SuggestCache) (k : String) : Option (List KeywordSuggestion) :=
  (c.find? (fun p => p.1 = k)).map (fun p => p.2)

/-- Python dict assignment `self.cache[cache_key] = suggestions`. -/
def insertCache (c : SuggestCache) (k : String) (v : List KeywordSuggestion) : SuggestCache :=
  if c.any (fun p => p.1 = k) then c.map (fun p => if p.1 = k then (k, v) else p)
  else c ++ [(k, v)]

/-- The suggestion pool after the DataForSEO tier (lines 65-72): its parsed
results when configured and successful, `[]` when unconfigured or when the
raised exception is swallowed by the `except` at line 71. -/
def pool1 (cfg : SuggestConfig) (env : SuggestEnv) (seed : String) :
    List KeywordSuggestion :=
  if cfg.hasDataforseo then (match env.dataforseo seed with | .ok l => l | .error _ => [])
  else []

/-- `KeywordSuggestionService.get_suggestions` (keyword_suggestion.py lines
37-90).  Returns the tiers that were consulted, together with either the
suggestions handed to the caller and the updated cache, or the Python
exception that escapes.  A cache hit (lines 59-61) returns the cached value
truncated to `limit` without consulting any tier.  Otherwise the DataForSEO
tier runs when configured (lines 65-72, its exceptions swallowed at line 71);
then line 75 evaluates `if not suggestions and settings.has_serper():`.  With
a non-empty pool the `and` short-circuits, line 84's fallback check is also
false, the pool is cached (line 88) and `suggestions[:limit]` returned (line
90).  With an empty pool, `settings.has_serper()` is evaluated - but
`Settings` (config.py) has no such attribute, so an `AttributeError` is
raised outside every `try` of the function and propagates to the caller: the
Serper, autocomplete and local-generation tiers further down the function are
unreachable. -/
def getSuggestions (cfg : SuggestConfig) (env : SuggestEnv) (cache : SuggestCache)
    (seed lang country : String) (limit : Nat) :
    List Tier × Except PyError (List KeywordSuggestion × SuggestCache) :=
  let key := cacheKey seed lang country limit
  match lookupCache cache key with
  | some v => ([], .ok (v.take limit, cache))
  | none =>
    let t1 : List Tier := if cfg.hasDataforseo then [Tier.dataforseo] else []
    let s1 := pool1 cfg env seed
    (t1,
      if s1.isEmpty then
        .error (.attributeError "Settings object has no attribute has_serper")
      else
        .ok (s1.take limit, insertCache cache key s1))

/-- The HTTP status dispatch of `_get_dataforseo_suggestions`
(keyword_suggestion.py lines 122-131): 401 raises `APIKeyMissingError`, 429
raises `APIRateLimitError`, any other non-200 raises `APIRequestError`, and a
200 response yields the parsed suggestions. -/
def dataforseoResponseToResult (status : Nat) (parsed : List KeywordSuggestion) :
    Except ApiError (List KeywordSuggestion) :=
  if status = 401 then .error (.apiKeyMissing "Invalid DataForSEO credentials")
  else if status = 429 then .error (.rateLimited "DataForSEO rate limit exceeded")
  else if status ≠ 200 then .error (.requestFailed ("DataForSEO API error: " ++ toString status))
  else .ok parsed

/-! ## Volume & competition service (backend/services/volume_competition.py) -/

/-- Python's binary `min` on floats (here: rationals). -/
def pyMin (a b : ℚ) : ℚ := if a ≤ b then a else b

/-- Python's binary `max` on floats (here: rationals). -/
def pyMax (a b : ℚ) : ℚ := if b ≤ a then a else b

/-- Accumulating scanner for Python's `str.split()`: `cur` holds the current
word's characters in reverse. -/
def pyWordsAux : List Char → List Char → List String
  | [], cur => if cur.isEmpty then [] else [cur.reverse.asString]
  | c :: cs, cur =>
    if c.isWhitespace then
      if cur.isEmpty then pyWordsAux cs [] else cur.reverse.asString :: pyWordsAux cs []
    else
      pyWordsAux cs (c :: cur)

/-- Python's `str.split()` with no arguments: split on whitespace runs,
discarding empty pieces.  Used by `len(kw.keyword.split())`
(volume_competition.py line 196). -/
def pyWords (s : String) : List String :=
  pyWordsAux s.toList []

/-- One iteration of the `_enrich_with_estimation` loop
(volume_competition.py lines 190-217), parameterised by Python's process-seeded
string hash `h`.  Records whose `search_volume` is already a positive value are
skipped (`if kw.search_volume and kw.search_volume > 0: continue`, lines
191-193); all other records get volume / competition / competition_score / cpc
assigned from the word-count buckets. -/
def enrichOneEstimation (h : String → Int) (kw : KeywordSuggestion) : KeywordSuggestion :=
  if (match kw.search_volume with | some v => decide (0 < v) | none => false : Bool) then kw
  else
    let wc := (pyWords kw.keyword).length
    let hv := h kw.keyword
    let est : Int × CompetitionLevel × ℚ :=
      if wc ≤ 2 then (5000 + hv % 45000, CompetitionLevel.high, 7/10 + ((hv % 30 : Int) : ℚ) / 100)
      else if wc = 3 then (1000 + hv % 9000, CompetitionLevel.medium, 4/10 + ((hv % 30 : Int) : ℚ) / 100)
      else (100 + hv % 900, CompetitionLevel.low, 1/10 + ((hv % 30 : Int) : ℚ) / 100)
    { kw with
        search_volume := some est.1
        competition := some est.2.1
        competition_score := some (pyMin 1 est.2.2)
        cpc := some (pyMax (1/10) (5 - (wc : ℚ) * (8/10))) }

/-- `_enrich_with_estimation` (volume_competition.py lines 182-219): the loop
mutates each record in place and returns the same list, i.e. a map. -/
def enrichWithEstimation (h : String → Int) (kws : List KeywordSuggestion) :
    List KeywordSuggestion :=
  kws.map (enrichOneEstimation h)

/-- The per-keyword entry of the `metrics_map` built by
`_fetch_google_ads_metrics` (volume_competition.py lines 164-174): when a
keyword is present in the map, all four keys exist; `competition_index` and
`cpc` hold `None` when the raw metric was falsy. -/
structure AdsMetrics where
  search_volume : Int
  competition : String
  competition_index : Option ℚ
  cpc : Option ℚ

/-- `_map_competition_level` (volume_competition.py lines 221-232). -/
def mapCompetitionLevel (competitionStr : Option String) : CompetitionLevel :=
  match competitionStr with
  | none => CompetitionLevel.unknown
  | some s =>
    match pyUpper s with
    | "LOW" => CompetitionLevel.low
    | "MEDIUM" => CompetitionLevel.medium
    | "HIGH" => CompetitionLevel.high
    | _ => CompetitionLevel.unknown

/-- One iteration of the `_enrich_with_google_ads` loop (volume_competition.py
lines 111-123), given `metrics_map.get(kw.keyword, {})` as `m?`.  With no
metrics entry, `metrics.get(key, old)` keeps the old numeric values but
`competition` is still overwritten with `_map_competition_level(None)`
(= UNKNOWN); with an entry, every field is assigned the fetched value
(`competition_index`/`cpc` may be a stored `None`, clearing the field). -/
def enrichOneAds (m? : Option AdsMetrics) (kw : KeywordSuggestion) : KeywordSuggestion :=
  match m? with
  | none => { kw with competition := some (mapCompetitionLevel none) }
  | some m =>
    { kw with
        search_volume := some m.search_volume
        competition := some (mapCompetitionLevel (some m.competition))
        competition_score := m.competition_index
        cpc := m.cpc }

/-- `_enrich_with_google_ads` (volume_competition.py lines 89-123), with the
fetched `metrics_map` as an oracle. -/
def enrichWithGoogleAds (metricsMap : String → Option AdsMetrics)
    (kws : List KeywordSuggestion) : List KeywordSuggestion :=
  kws.map (fun kw => enrichOneAds (metricsMap kw.keyword) kw)

/-! ## LangChain analysis service (backend/services/langchain_analysis.py) -/

/-- `_parse_json_response`'s fence stripping (langchain_analysis.py lines
334-344): strip, remove a leading ` ```json ` or ` ``` ` marker, remove a
trailing ` ``` ` marker, strip again.  The actual `json.loads` is the caller's
parse oracle. -/
def stripFences (content : String) : String :=
  let c := pyStrip content
  let c :=
    if c.startsWith "```json" then c.drop 7
    else if c.startsWith "```" then c.drop 3
    else c
  let c := if c.endsWith "```" then c.dropRight 3 else c
  pyStrip c

/-- Python `dict.get(key, default)` on a parsed JSON value: raises
(`.error`) when the receiver is not a dict.  Duplicate keys cannot arise from
`json.loads` (later wins), so the last binding is taken. -/
def pyDictGet (j : Json) (k : String) (dflt : Json) : Except Unit Json :=
  match j with
  | .obj kvs => .ok ((((kvs.reverse).find? (fun p => p.1 = k)).map (fun p => p.2)).getD dflt)
  | _ => .error ()

/-- `SearchIntent[name]` — Python `Enum` lookup by member name
(`KeyError` → `none`). -/
def searchIntentByName : String → Option SearchIntent
  | "INFORMATIONAL" => some .informational
  | "COMMERCIAL" => some .commercial
  | "TRANSACTIONAL" => some .transactional
  | "NAVIGATIONAL" => some .navigational
  | "UNKNOWN" => some .unknown
  | _ => none

/-- `DifficultyLevel[name]` — Python `Enum` lookup by member name. -/
def difficultyByName : String → Option DifficultyLevel
  | "VERY_EASY" => some .very_easy
  | "EASY" => some .easy
  | "MEDIUM" => some .medium
  | "HARD" => some .hard
  | "VERY_HARD" => some .very_hard
  | _ => none

/-- Equality of JSON scalars as Python dict keys (`None`, bools, numbers and
strings; Python compares bools and numbers numerically).  Lists/dicts are
unhashable and are rejected before this is used. -/
def scalarKeyEqb : Json → Json → Bool
  | .null, .null => true
  | .bool a, .bool b => a == b
  | .bool a, .num b => (if a then (1 : ℚ) else 0) == b
  | .num a, .bool b => a == (if b then (1 : ℚ) else 0)
  | .num a, .num b => a == b
  | .str a, .str b => a == b
  | _, _ => false

/-- Python dict assignment `intent_map[keyword] = intent` (overwrite or
append). -/
def intentMapInsert (m : List (Json × SearchIntent)) (k : Json) (v : SearchIntent) :
    List (Json × SearchIntent) :=
  if m.any (fun p => scalarKeyEqb p.1 k) then
    m.map (fun p => if scalarKeyEqb p.1 k then (p.1, v) else p)
  else m ++ [(k, v)]

/-- The `for classification in result.get("classifications", [])` loop of
`classify_intent` (langchain_analysis.py lines 86-97).  Any step Python would
raise on (non-dict element, non-string `intent`, unhashable keyword) aborts to
`.error`, which the caller's `except` turns into the default. -/
def classifyIntentLoop (items : List Json) (acc : List (Json × SearchIntent)) :
    Except Unit (List (Json × SearchIntent)) :=
  match items with
  | [] => .ok acc
  | c :: rest => do
    let keywordJ ← pyDictGet c "keyword" .null
    let intentJ ← pyDictGet c "intent" (.str "UNKNOWN")
    let intentStr ← (match intentJ with | .str s => .ok s | _ => .error () : Except Unit String)
    let intent := (searchIntentByName (pyUpper intentStr)).getD .unknown
    match keywordJ with
    | .arr _ => .error ()
    | .obj _ => .error ()
    | k => classifyIntentLoop rest (intentMapInsert acc k intent)

/-- The success-path body of `classify_intent` after `_parse_json_response`
(lines 84-99).  `result.get("classifications", [])` must come from a dict and
be iterated; non-list payloads abort into the exception path. -/
def classifyIntentCore (result : Json) : Except Unit (List (Json × SearchIntent)) := do
  let cls ← pyDictGet result "classifications" (.arr [])
  match cls with
  | .arr items => classifyIntentLoop items []
  | _ => .error ()

/-- `LangChainAnalysisService.classify_intent` (langchain_analysis.py lines
56-104), with `json.loads` as the parse oracle `jp` and the LLM reply text as
`reply`.  Empty input short-circuits (line 66); any parse or extraction
failure yields the default map sending every keyword to UNKNOWN (lines
101-104). -/
def classifyIntent (jp : String → Option Json) (keywords : List String) (reply : String) :
    List (Json × SearchIntent) :=
  if keywords.isEmpty then []
  else
    match jp (stripFences reply) with
    | none => keywords.map (fun kw => (Json.str kw, SearchIntent.unknown))
    | some result =>
      match classifyIntentCore result with
      | .ok m => m
      | .error _ => keywords.map (fun kw => (Json.str kw, SearchIntent.unknown))

/-- Membership test `kw.keyword in cluster_keywords` where `cluster_keywords`
is a parsed JSON list (Python `==` between a string and a JSON element). -/
def jsonListContainsStr (l : List Json) (s : String) : Bool :=
  l.any (fun j => scalarKeyEqb j (.str s))

/-- Python truthiness of `kw.search_volume` (line 164 of
langchain_analysis.py): `None` and `0` are falsy. -/
def volumeTruthy (v : Option Int) : Bool :=
  match v with | none => false | some n => n ≠ 0

/-- The volumes comprehension and average of `cluster_keywords`
(langchain_analysis.py lines 162-166): volumes of the metrics whose keyword is
listed in the cluster and whose volume is truthy; `sum // len` (Python floor
division, `Int.fdiv`) when non-empty, else `None`. -/
def clusterAvgVolume (keywords : List KeywordMetrics) (clusterKws : List Json) : Option Int :=
  let volumes := (keywords.filter (fun kw =>
    jsonListContainsStr clusterKws kw.keyword && volumeTruthy kw.search_volume)).map
      (fun kw => kw.search_volume.getD 0)
  if volumes.isEmpty then none else some (Int.fdiv volumes.sum volumes.length)

/-- One iteration of the `for idx, cluster_data in enumerate(...)` loop of
`cluster_keywords` (langchain_analysis.py lines 152-178). -/
def buildCluster (keywords : List KeywordMetrics) (idx : Nat) (clusterData : Json) :
    Except Unit KeywordCluster := do
  let intentJ ← pyDictGet clusterData "intent" (.str "UNKNOWN")
  let intentStr ← (match intentJ with | .str s => .ok s | _ => .error () : Except Unit String)
  let intent := (searchIntentByName (pyUpper intentStr)).getD .unknown
  let ckJ ← pyDictGet clusterData "keywords" (.arr [])
  let clusterKws ← (match ckJ with | .arr l => .ok l | _ => .error () : Except Unit (List Json))
  let cid ← pyDictGet clusterData "cluster_id" (.num (idx + 1))
  let cname ← pyDictGet clusterData "cluster_name" (.str ("Cluster " ++ toString (idx + 1)))
  let primaryDefault := (clusterKws.head?).getD (.str "")
  let primary ← pyDictGet clusterData "primary_keyword" primaryDefault
  let recommendation ← pyDictGet clusterData "recommendation" .null
  .ok { cluster_id := cid
        cluster_name := cname
        primary_keyword := primary
        keywords := clusterKws
        intent := intent
        avg_search_volume := clusterAvgVolume keywords clusterKws
        recommendation := recommendation }

/-- The loop over `result.get("clusters", [])`. -/
def clusterLoop (keywords : List KeywordMetrics) (idx : Nat) (items : List Json) :
    Except Unit (List KeywordCluster) :=
  match items with
  | [] => .ok []
  | c :: rest => do
    let cl ← buildCluster keywords idx c
    let tail ← clusterLoop keywords (idx + 1) rest
    .ok (cl :: tail)

/-- The success-path body of `cluster_keywords` after `_parse_json_response`
(lines 149-180). -/
def clusterKeywordsCore (keywords : List KeywordMetrics) (result : Json) :
    Except Unit (List KeywordCluster) := do
  let clustersJ ← pyDictGet result "clusters" (.arr [])
  match clustersJ with
  | .arr items => clusterLoop keywords 0 items
  | _ => .error ()

/-- `LangChainAnalysisService.cluster_keywords` (langchain_analysis.py lines
106-184): empty input short-circuits (line 121); parse or extraction failure
yields the empty cluster list (lines 182-184). -/
def clusterKeywords (jp : String → Option Json) (keywords : List KeywordMetrics)
    (reply : String) : List KeywordCluster :=
  if keywords.isEmpty then []
  else
    match jp (stripFences reply) with
    | none => []
    | some result =>
      match clusterKeywordsCore keywords result with
      | .ok cs => cs
      | .error _ => []

/-- `LangChainAnalysisService.analyze_difficulty` (langchain_analysis.py lines
186-234): returns the parsed JSON as-is, or the fixed MEDIUM/50 default dict
on parse failure (lines 227-234). -/
def analyzeDifficulty (jp : String → Option Json) (keyword : String) (reply : String) : Json :=
  match jp (stripFences reply) with
  | some result => result
  | none =>
    .obj [("keyword", .str keyword),
          ("difficulty_level", .str "MEDIUM"),
          ("difficulty_score", .num 50),
          ("reasoning", .str "Unable to analyze difficulty")]

/-- `LangChainAnalysisService.generate_recommendations` (lines 236-286):
parsed JSON, or the fixed "unable to generate" dict on parse failure. -/
def generateRecommendations (jp : String → Option Json) (reply : String) : Json :=
  match jp (stripFences reply) with
  | some result => result
  | none => .obj [("overall_strategy", .str "Unable to generate recommendations")]

/-- `LangChainAnalysisService.analyze_content_gaps` (lines 288-328): parsed
JSON, or empty themes/gaps on parse failure. -/
def analyzeContentGaps (jp : String → Option Json) (reply : String) : Json :=
  match jp (stripFences reply) with
  | some result => result
  | none => .obj [("common_themes", .arr []), ("content_gaps", .arr [])]

/-! ## SERP analysis service (backend/services/serp_analysis.py) -/

/-- Whether `pat` is an initial segment of `l`. -/
def listStartsWith : List Char → List Char → Bool
  | [], _ => true
  | _ :: _, [] => false
  | p :: ps, c :: cs => p == c && listStartsWith ps cs

/-- Whether `pat` occurs contiguously anywhere in `l`. -/
def containsPat (pat : List Char) : List Char → Bool
  | [] => listStartsWith pat []
  | c :: cs => listStartsWith pat (c :: cs) || containsPat pat cs

/-- Scanner for Python `str.replace(pat, "")` with a non-empty pattern: scan
left to right; `k` counts characters still to be dropped from the occurrence
currently being deleted.  At `k = 0`, a match starting at the current
character deletes it and schedules the remaining `pat.length - 1` characters
of the occurrence for deletion, so occurrences are non-overlapping and the
scan resumes after each deleted occurrence, exactly as Python's `replace`. -/
def raGo (pat : List Char) : Nat → List Char → List Char
  | _, [] => []
  | k + 1, _ :: cs => raGo pat k cs
  | 0, c :: cs =>
    if 0 < pat.length ∧ listStartsWith pat (c :: cs) = true then
      raGo pat (pat.length - 1) cs
    else
      c :: raGo pat 0 cs

/-- Python `s.replace(pat, "")`. -/
def pyReplaceAll (s pat : String) : String :=
  (raGo pat.toList 0 s.toList).asString

/-- Characters the scheme of a URL may contain (CPython
`urllib.parse.scheme_chars`). -/
def schemeChar (c : Char) : Bool :=
  c.isAlpha || c.isDigit || c == '+' || c == '-' || c == '.'

/-- CPython `urlsplit` scheme stripping: at the first `':'`, when it is past
position 0, the first character is a letter, and everything before it is a
scheme character, the remainder after the colon is kept. -/
def splitSchemeRest (l : List Char) : List Char :=
  let i := l.findIdx (fun c => c == ':')
  if i < l.length ∧ 0 < i ∧ (l.take i).all schemeChar
      ∧ (match l.head? with | some c => c.isAlpha | none => false) = true then
    l.drop (i + 1)
  else l

/-- The netloc computed by CPython's `urllib.parse.urlsplit` (as used by
`urlparse` in `_extract_domain`): unsafe bytes (tab/CR/LF) are removed, the
scheme is stripped, and when the remainder starts with `//` the netloc runs to
the next `/`, `?` or `#`.  An unbalanced square bracket in the netloc raises
`ValueError` (modelled as `.error`).  This models the standard library, which
the repository calls at serp_analysis.py line 274. -/
def urlsplitNetloc (url : String) : Except Unit String :=
  let l := url.toList.filter (fun c => !(c == '\t' || c == '\r' || c == '\n'))
  let rest := splitSchemeRest l
  if listStartsWith ['/', '/'] rest then
    let netloc := (rest.drop 2).takeWhile (fun c => !(c == '/' || c == '?' || c == '#'))
    if (netloc.any (fun x => x == '[') && !netloc.any (fun x => x == ']'))
        || (netloc.any (fun x => x == ']') && !netloc.any (fun x => x == '[')) then
      .error ()
    else
      .ok netloc.asString
  else
    .ok ""

/-- `SERPAnalysisService._extract_domain` (serp_analysis.py lines 270-277):
`urlparse(url).netloc.replace("www.", "")`, with the bare `except` returning
the empty string. -/
def extractDomain (url : String) : String :=
  match urlsplitNetloc url with
  | .ok netloc => pyReplaceAll netloc "www."
  | .error _ => ""

/-! ## Orchestrator (backend/services/orchestrator.py) -/

/-- The difficulty-application step of `analyze_keyword_complete`
(orchestrator.py lines 130-138): read `difficulty_level` (default `"MEDIUM"`,
unknown names fall back to MEDIUM via the inner `except KeyError`) and assign
`difficulty_analysis.get("difficulty_score", 50)` to the metrics record
verbatim — pydantic does not re-validate attribute assignment, so whatever the
parsed LLM reply contained is stored. -/
def applyDifficultyAnalysis (analysis : Json) (kw : KeywordMetrics) :
    Except Unit KeywordMetrics := do
  let levelJ ← pyDictGet analysis "difficulty_level" (.str "MEDIUM")
  let difficulty := (match levelJ with | .str s => difficultyByName s | _ => none).getD .medium
  let scoreJ ← pyDictGet analysis "difficulty_score" (.num 50)
  .ok { kw with difficulty := some difficulty, difficulty_score := some scoreJ }

/-- The documented range of `difficulty_score`
(`Field(None, ge=0, le=100)`, keyword_schemas.py line 91): in range when a
number within bounds or unset. -/
def difficultyScoreDocRange : Option Json → Prop
  | none => True
  | some (.num q) => 0 ≤ q ∧ q ≤ 100
  | some _ => False

/-- The documented range of `competition_score`
(`Field(None, ge=0, le=1)`, keyword_schemas.py line 74). -/
def competitionScoreDocRange : Option ℚ → Prop
  | none => True
  | some q => 0 ≤ q ∧ q ≤ 1

/-! ## Spec-side definitions (formalising the claims' words, for comparison) -/

/-- Claim C1, formalised over the embedding.  "Each tier is attempted only if
all prior tiers together yielded fewer results than requested or zero results,
and partial results from an earlier tier are kept and topped up by the next
tier rather than discarded": the pool accumulated before a tier must be short
of `limit` (or empty) whenever that tier is consulted, and a run whose first
tier yielded a non-empty pool short of `limit` must complete successfully with
that pool kept and topped up by the next tier (the autocomplete fallback)
rather than returned as-is. -/
def claimC1 : Prop :=
  ∀ (cfg : SuggestConfig) (env : SuggestEnv) (seed lang country : String) (limit : Nat),
    let out := getSuggestions cfg env [] seed lang country limit
    (Tier.serper ∈ out.1 →
      ((pool1 cfg env seed).length < limit ∨ (pool1 cfg env seed).length = 0)) ∧
    (Tier.googleAutocomplete ∈ out.1 →
      ((pool1 cfg env seed).length < limit ∨ (pool1 cfg env seed).length = 0)) ∧
    (Tier.generation ∈ out.1 →
      ((pool1 cfg env seed).length + (autoMerged env seed).length < limit ∨
        (pool1 cfg env seed).length + (autoMerged env seed).length = 0)) ∧
    (0 < (pool1 cfg env seed).length → (pool1 cfg env seed).length < limit →
      ∃ res cache2, out.2 = .ok (res, cache2) ∧
        min limit ((pool1 cfg env seed).length
          + (getFallbackSuggestions env seed limit).1.length) ≤ res.length)

/-- Claim C6, formalised: on both enrichment tiers, a numeric field already
holding a non-zero value is never overwritten, and `keyword`/`source` are
unchanged. -/
def claimC6 : Prop :=
  (∀ (h : String → Int) (kw : KeywordSuggestion),
    (enrichOneEstimation h kw).keyword = kw.keyword ∧
    (enrichOneEstimation h kw).source = kw.source ∧
    (∀ v : Int, kw.search_volume = some v → v ≠ 0 →
      (enrichOneEstimation h kw).search_volume = some v) ∧
    (∀ q : ℚ, kw.competition_score = some q → q ≠ 0 →
      (enrichOneEstimation h kw).competition_score = some q) ∧
    (∀ q : ℚ, kw.cpc = some q → q ≠ 0 → (enrichOneEstimation h kw).cpc = some q)) ∧
  (∀ (m? : Option AdsMetrics) (kw : KeywordSuggestion),
    (enrichOneAds m? kw).keyword = kw.keyword ∧
    (enrichOneAds m? kw).source = kw.source ∧
    (∀ v : Int, kw.search_volume = some v → v ≠ 0 →
      (enrichOneAds m? kw).search_volume = some v) ∧
    (∀ q : ℚ, kw.competition_score = some q → q ≠ 0 →
      (enrichOneAds m? kw).competition_score = some q) ∧
    (∀ q : ℚ, kw.cpc = some q → q ≠ 0 → (enrichOneAds m? kw).cpc = some q))

/-- The cluster average the claim C8 describes: the integer-truncated mean of
exactly those member keywords that have a known (present) volume, `none` when
there is no such member. -/
def specClusterAvg (keywords : List KeywordMetrics) (c : KeywordCluster) : Option Int :=
  let volumes := (keywords.filter (fun kw =>
    jsonListContainsStr c.keywords kw.keyword && kw.search_volume.isSome)).map
      (fun kw => kw.search_volume.getD 0)
  if volumes.isEmpty then none else some (Int.tdiv volumes.sum volumes.length)

/-- Claim C8, formalised: every produced cluster carries the spec's average. -/
def claimC8 : Prop :=
  ∀ (jp : String → Option Json) (keywords : List KeywordMetrics) (reply : String),
    ∀ c ∈ clusterKeywords jp keywords reply, c.avg_search_volume = specClusterAvg keywords c

/-- The domain the claim C9 describes: the URL's host with a leading `www.`
stripped, the empty string for a malformed URL. -/
def specStripLeadingWww (netloc : String) : String :=
  if listStartsWith "www.".toList netloc.toList then (netloc.toList.drop 4).asString
  else netloc

/-- Claim C9, formalised: `_extract_domain` returns the host with a leading
`www.` prefix stripped (empty string when host extraction fails). -/
def claimC9 : Prop :=
  ∀ url : String,
    extractDomain url =
      (match urlsplitNetloc url with
        | .ok netloc => specStripLeadingWww netloc
        | .error _ => "")

/-- The cluster average the amended C8 states: the integer (floor) mean over
exactly the member keywords whose volume is present and non-zero, `none` when
there is no such member. -/
def amendedClusterAvg (keywords : List KeywordMetrics) (c : KeywordCluster) : Option Int :=
  let volumes := (keywords.filter (fun kw =>
    jsonListContainsStr c.keywords kw.keyword &&
      (kw.search_volume.isSome && (kw.search_volume.getD 0 != 0)))).map
        (fun kw => kw.search_volume.getD 0)
  if volumes.isEmpty then none else some (Int.fdiv volumes.sum volumes.length)

/-- A keyword whose volume is known and equal to zero. -/
def c8Metric : KeywordMetrics := { keyword := "alpha", search_volume := some 0 }

/-- A parsed clustering reply grouping exactly that keyword. -/
def c8Json : Json :=
  .obj [("clusters", .arr [.obj [("keywords", .arr [.str "alpha"])]])]

/-- Metrics for the C8 witness: one member with volume, one without. -/
def c8wMetrics : List KeywordMetrics :=
  [{ keyword := "beta", search_volume := some 10 }, { keyword := "gamma" }]

/-- A parsed clustering reply grouping both witness keywords. -/
def c8wJson : Json :=
  .obj [("clusters", .arr [.obj [("keywords", .arr [.str "beta", .str "gamma"])]])]

/-- The parse oracle returning the witness clustering reply. -/
def c8wJp : String → Option Json := fun _ => some c8wJson

/-- A character that may appear in the host part of the URLs quantified over
in the C9 theorem: no netloc delimiter, no bracket, no unsafe byte. -/
def cleanHostChar (c : Char) : Bool :=
  !(c == '/' || c == '?' || c == '#' || c == '[' || c == ']'
    || c == '\t' || c == '\r' || c == '\n')

/-- Concrete instance of the C5 theorem: the spec's own example keyword. -/
def c5Kw : KeywordSuggestion := { keyword := "best seo tools guide" }

/-- A record as the DataForSEO parser can produce it: no volume yet, but a
cost-per-click already present. -/
def c6Kw : KeywordSuggestion := { keyword := "seo", cpc := some 2, source := "dataforseo" }

/-- An environment in which every outbound call fails. -/
def envBare : SuggestEnv :=
  { dataforseo := fun _ => .error (.other "unconfigured")
    googleAc := fun _ => .error (.requestFailed "network error")
    ddgAc := fun _ => .error (.requestFailed "network error") }

/-- Environment for the C1 counterexample: DataForSEO yields a single
suggestion, while the free autocomplete tier would yield twelve. -/
def c1Env : SuggestEnv :=
  { dataforseo := fun _ => .ok [{ keyword := "seo tools", source := "dataforseo" }]
    googleAc := fun _ => .ok ["seo tools 1", "seo tools 2", "seo tools 3", "seo tools 4",
      "seo tools 5", "seo tools 6", "seo tools 7", "seo tools 8", "seo tools 9",
      "seo tools 10", "seo tools 11", "seo tools 12"]
    ddgAc := fun _ => .ok [] }

/-- Environment for C4: DataForSEO answers HTTP 401, while the autocomplete
endpoints stand ready with suggestions. -/
def envC4 : SuggestEnv :=
  { dataforseo := fun _ => dataforseoResponseToResult 401 []
    googleAc := fun _ => .ok ["seo tools online", "seo tools free", "seo tools list"]
    ddgAc := fun _ => .ok [] }

/-- Environment for C10: the DataForSEO adapter answers each request with one
suggestion derived from that request's seed keyword. -/
def envC10 : SuggestEnv :=
  { dataforseo := fun seed => .ok [{ keyword := "top " ++ seed, source := "dataforseo" }]
    googleAc := fun _ => .error (.requestFailed "network error")
    ddgAc := fun _ => .error (.requestFailed "network error") }

/-! ## Theorems -/

/-- Unfolding of `_enrich_with_estimation` on a record that is not skipped and
falls into the long-tail (≥ 4 words) bucket. -/
theorem enrichOneEstimation_longtail (h : String → Int) (kw : KeywordSuggestion)
    (hskip : (match kw.search_volume with | some v => decide (0 < v) | none => false) = false)
    (h2 : ¬ (pyWords kw.keyword).length ≤ 2)
    (h3 : (pyWords kw.keyword).length ≠ 3) :
    enrichOneEstimation h kw =
      { kw with
          search_volume := some (100 + h kw.keyword % 900)
          competition := some CompetitionLevel.low
          competition_score := some (pyMin 1 (1/10 + ((h kw.keyword % 30 : Int) : ℚ) / 100))
          cpc := some (pyMax (1/10) (5 - ((pyWords kw.keyword).length : ℚ) * (8/10))) } := by
  unfold enrichOneEstimation
  rw [hskip]
  simp only [Bool.false_eq_true, if_false, if_neg h2, if_neg h3]

/-- Unfolding of `_enrich_with_estimation` on a record that is not skipped and
falls into the head (≤ 2 words) bucket. -/
theorem enrichOneEstimation_shorthead (h : String → Int) (kw : KeywordSuggestion)
    (hskip : (match kw.search_volume with | some v => decide (0 < v) | none => false) = false)
    (h2 : (pyWords kw.keyword).length ≤ 2) :
    enrichOneEstimation h kw =
      { kw with
          search_volume := some (5000 + h kw.keyword % 45000)
          competition := some CompetitionLevel.high
          competition_score := some (pyMin 1 (7/10 + ((h kw.keyword % 30 : Int) : ℚ) / 100))
          cpc := some (pyMax (1/10) (5 - ((pyWords kw.keyword).length : ℚ) * (8/10))) } := by
  unfold enrichOneEstimation
  rw [hskip]
  simp only [Bool.false_eq_true, if_false, if_pos h2]

/-- C5: a keyword of at least 4 words with no pre-existing positive search
volume receives, from the heuristic enrichment tier, a volume estimate of
`100 + hash % 900` (hence within the 100-999 band), a `low` competition label,
and values that are a function of the keyword text alone (for a fixed process
hash seed), hence reproducible for the same keyword text. -/
theorem c5_longtail_band (h : String → Int) (kw : KeywordSuggestion)
    (hwc : 4 ≤ (pyWords kw.keyword).length)
    (hvol : ∀ v : Int, kw.search_volume = some v → v ≤ 0) :
    (enrichOneEstimation h kw).search_volume = some (100 + h kw.keyword % 900) ∧
    (∀ v : Int, (enrichOneEstimation h kw).search_volume = some v → 100 ≤ v ∧ v ≤ 999) ∧
    (enrichOneEstimation h kw).competition = some CompetitionLevel.low ∧
    (∀ kw' : KeywordSuggestion, kw'.keyword = kw.keyword →
      (∀ v : Int, kw'.search_volume = some v → v ≤ 0) →
      (enrichOneEstimation h kw').search_volume = (enrichOneEstimation h kw).search_volume ∧
      (enrichOneEstimation h kw').competition = (enrichOneEstimation h kw).competition ∧
      (enrichOneEstimation h kw').competition_score
        = (enrichOneEstimation h kw).competition_score ∧
      (enrichOneEstimation h kw').cpc = (enrichOneEstimation h kw).cpc) := by
  have hskipOf : ∀ k : KeywordSuggestion, (∀ v : Int, k.search_volume = some v → v ≤ 0) →
      (match k.search_volume with | some v => decide (0 < v) | none => false) = false := by
    intro k hk
    cases hsv : k.search_volume with
    | none => rfl
    | some v =>
      have := hk v hsv
      simp only [decide_eq_false_iff_not]
      omega
  have heq := enrichOneEstimation_longtail h kw (hskipOf kw hvol) (by omega) (by omega)
  have hmod_lo : 0 ≤ h kw.keyword % 900 := Int.emod_nonneg _ (by norm_num)
  have hmod_hi : h kw.keyword % 900 < 900 := Int.emod_lt_of_pos _ (by norm_num)
  refine ⟨by rw [heq], ?_, by rw [heq], ?_⟩
  · intro v hv
    rw [heq] at hv
    simp only [Option.some.injEq] at hv
    omega
  · intro kw' hk hvol'
    have heq' := enrichOneEstimation_longtail h kw' (hskipOf kw' hvol')
      (by rw [hk]; omega) (by rw [hk]; omega)
    rw [heq, heq', hk]
    exact ⟨rfl, rfl, rfl, rfl⟩

/-- Witness for C5 at the spec's example keyword and a concrete hash. -/
theorem c5_witness :
    (enrichOneEstimation (fun _ => 0) c5Kw).search_volume = some 100 ∧
    (enrichOneEstimation (fun _ => 0) c5Kw).competition = some CompetitionLevel.low := by
  have h := c5_longtail_band (fun _ => 0) c5Kw (by decide)
    (by intro v hv; simp [c5Kw] at hv)
  refine ⟨?_, h.2.2.1⟩
  rw [h.1]
  norm_num

/-- C6 is false: the estimation tier decides whether to touch a record only by
its `search_volume`; a record with no volume but an already-present non-zero
`cpc` gets that cpc overwritten (here `2.0` becomes `max(0.1, 5 - 1*0.8) =
4.2`). -/
theorem c6_counterexample : ¬ claimC6 := by
  intro hc
  have h := (hc.1 (fun _ => 0) c6Kw).2.2.2.2 2 rfl (by norm_num)
  have heq := enrichOneEstimation_shorthead (fun _ => 0) c6Kw rfl (by decide)
  rw [heq] at h
  simp only [Option.some.injEq] at h
  rw [pyMax] at h
  have hl : (pyWords c6Kw.keyword).length = 1 := by decide
  rw [hl] at h
  norm_num at h

/-- C6 amended: both enrichment tiers leave `keyword`, `source` and `trend`
unchanged; the estimation tier skips (leaves entirely unchanged) exactly the
records whose `search_volume` is already positive and overwrites all four
metric fields of every other record; the Google-Ads tier leaves the numeric
fields unchanged for keywords absent from the fetched metrics map (while
resetting `competition` to UNKNOWN). -/
theorem c6_enrichment_frame :
    (∀ (h : String → Int) (kw : KeywordSuggestion),
      (enrichOneEstimation h kw).keyword = kw.keyword ∧
      (enrichOneEstimation h kw).source = kw.source ∧
      (enrichOneEstimation h kw).trend = kw.trend ∧
      (∀ v : Int, kw.search_volume = some v → 0 < v → enrichOneEstimation h kw = kw)) ∧
    (∀ (m? : Option AdsMetrics) (kw : KeywordSuggestion),
      (enrichOneAds m? kw).keyword = kw.keyword ∧
      (enrichOneAds m? kw).source = kw.source ∧
      (enrichOneAds m? kw).trend = kw.trend ∧
      (m? = none →
        (enrichOneAds m? kw).search_volume = kw.search_volume ∧
        (enrichOneAds m? kw).competition_score = kw.competition_score ∧
        (enrichOneAds m? kw).cpc = kw.cpc)) := by
  constructor
  · intro h kw
    refine ⟨?_, ?_, ?_, ?_⟩
    · unfold enrichOneEstimation; split <;> rfl
    · unfold enrichOneEstimation; split <;> rfl
    · unfold enrichOneEstimation; split <;> rfl
    · intro v hv hpos
      unfold enrichOneEstimation
      rw [hv]
      simp [hpos]
  · intro m? kw
    cases m? with
    | none => exact ⟨rfl, rfl, rfl, fun _ => ⟨rfl, rfl, rfl⟩⟩
    | some m =>
      refine ⟨rfl, rfl, rfl, ?_⟩
      intro hx
      exact absurd hx (by simp)

/-- Witness for the C6 amended theorem: a record with positive volume passes
the estimation tier untouched, and the Ads tier without a metrics entry keeps
the numeric fields. -/
theorem c6_witness :
    enrichOneEstimation (fun _ => 0) { keyword := "seo", search_volume := some 5 }
      = { keyword := "seo", search_volume := some 5 } ∧
    (enrichOneAds none { keyword := "seo", cpc := some 2 }).cpc = some 2 := by
  constructor
  · exact (c6_enrichment_frame.1 (fun _ => 0) { keyword := "seo", search_volume := some 5 }).2.2.2
      5 rfl (by norm_num)
  · exact ((c6_enrichment_frame.2 none { keyword := "seo", cpc := some 2 }).2.2.2 rfl).2.2

/-- C7: the difficulty-application step of the orchestrator stores the LLM's
`difficulty_score` verbatim; a reply carrying `150` puts `150` into a field
whose schema documents the range 0-100 — the documented invariant is not
enforced on this path. -/
theorem c7_difficulty_score_unvalidated :
    applyDifficultyAnalysis
        (Json.obj [("difficulty_level", Json.str "MEDIUM"), ("difficulty_score", Json.num 150)])
        { keyword := "seo tools" } =
      Except.ok { keyword := "seo tools", difficulty := some DifficultyLevel.medium,
                  difficulty_score := some (Json.num 150) } ∧
    ¬ difficultyScoreDocRange (some (Json.num 150)) := by
  constructor
  · rfl
  · intro hr
    exact absurd hr.2 (by norm_num)

/-- C3: whenever the fence-stripped LLM reply fails to parse as JSON, each of
the five interpretation tasks returns its documented safe default — every
keyword mapped to UNKNOWN intent, an empty cluster list, the MEDIUM/50
difficulty payload, the fixed "unable to generate" recommendation, and empty
themes/gaps — and, being total functions, none of them propagates a failure
that could abort sibling tasks or the pipeline. -/
theorem c3_parse_failure_defaults (jp : String → Option Json) (reply : String)
    (keywords : List String) (kms : List KeywordMetrics) (keyword : String)
    (hp : jp (stripFences reply) = none) :
    classifyIntent jp keywords reply
      = keywords.map (fun kw => (Json.str kw, SearchIntent.unknown)) ∧
    clusterKeywords jp kms reply = [] ∧
    analyzeDifficulty jp keyword reply
      = Json.obj [("keyword", Json.str keyword), ("difficulty_level", Json.str "MEDIUM"),
                  ("difficulty_score", Json.num 50),
                  ("reasoning", Json.str "Unable to analyze difficulty")] ∧
    generateRecommendations jp reply
      = Json.obj [("overall_strategy", Json.str "Unable to generate recommendations")] ∧
    analyzeContentGaps jp reply
      = Json.obj [("common_themes", Json.arr []), ("content_gaps", Json.arr [])] := by
  refine ⟨?_, ?_, ?_, ?_, ?_⟩
  · by_cases hk : keywords.isEmpty
    · have : keywords = [] := by
        cases keywords with
        | nil => rfl
        | cons a l => simp [List.isEmpty] at hk
      subst this
      simp [classifyIntent]
    · simp [classifyIntent, hk, hp]
  · by_cases hk : kms.isEmpty
    · simp [clusterKeywords, hk]
    · simp [clusterKeywords, hk, hp]
  · unfold analyzeDifficulty
    rw [hp]
  · unfold generateRecommendations
    rw [hp]
  · unfold analyzeContentGaps
    rw [hp]

/-- Witness for C3 with a concretely failing parse. -/
theorem c3_witness :
    classifyIntent (fun _ => none) ["seo tools"] "not json"
      = [(Json.str "seo tools", SearchIntent.unknown)] ∧
    clusterKeywords (fun _ => none) [{ keyword := "seo tools" }] "not json" = [] ∧
    generateRecommendations (fun _ => none) "not json"
      = Json.obj [("overall_strategy", Json.str "Unable to generate recommendations")] := by
  have h := c3_parse_failure_defaults (fun _ => none) "not json" ["seo tools"]
    [{ keyword := "seo tools" }] "seo tools" rfl
  exact ⟨h.1, h.2.1, h.2.2.2.1⟩

/-- C4: the 401 is mapped to the typed `APIKeyMissingError` and swallowed at
the chain boundary, but the suggestion operation still fails as a whole: the
now-empty pool reaches the missing `settings.has_serper()` and
`get_suggestions` raises an uncaught AttributeError instead of advancing to
the free autocomplete tier - whose results stand ready in this environment
and are never served. -/
theorem c4_credentials_error_then_crash :
    dataforseoResponseToResult 401 []
      = .error (.apiKeyMissing "Invalid DataForSEO credentials") ∧
    envC4.dataforseo "seo tools"
      = .error (.apiKeyMissing "Invalid DataForSEO credentials") ∧
    (getFallbackSuggestions envC4 "seo tools" 20).1 ≠ [] ∧
    (getSuggestions ⟨true⟩ envC4 [] "seo tools" "en" "us" 20).2
      = .error (.attributeError "Settings object has no attribute has_serper") := by
  refine ⟨rfl, rfl, by decide, rfl⟩

/-- C10: the underscore-joined cache key is not injective - the requests
`("a_b", "c", "d", 7)` and `("a", "b_c", "d", 7)` are distinct but share the
key `"a_b_c_d_7"` - and after a DataForSEO-backed run of the first request, a
second, different request hitting the same key is served the first request's
cached suggestion (for seed `"a_b"`) instead of the suggestion a fresh run
would fetch for its own seed `"a"`. -/
theorem c10_cache_key_collision :
    cacheKey "a_b" "c" "d" 7 = cacheKey "a" "b_c" "d" 7 ∧
    ("a_b", "c", "d") ≠ ("a", "b_c", "d") ∧
    (getSuggestions ⟨true⟩ envC10 [] "a_b" "c" "d" 7).2
      = .ok ([{ keyword := "top a_b", source := "dataforseo" }],
          [("a_b_c_d_7", [{ keyword := "top a_b", source := "dataforseo" }])]) ∧
    (getSuggestions ⟨true⟩ envC10
        [("a_b_c_d_7", [{ keyword := "top a_b", source := "dataforseo" }])]
        "a" "b_c" "d" 7).2
      = .ok ([{ keyword := "top a_b", source := "dataforseo" }],
          [("a_b_c_d_7", [{ keyword := "top a_b", source := "dataforseo" }])]) ∧
    (getSuggestions ⟨true⟩ envC10 [] "a" "b_c" "d" 7).2
      = .ok ([{ keyword := "top a", source := "dataforseo" }],
          [("a_b_c_d_7", [{ keyword := "top a", source := "dataforseo" }])]) ∧
    ({ keyword := "top a_b", source := "dataforseo" } : KeywordSuggestion)
      ≠ { keyword := "top a", source := "dataforseo" } := by
  refine ⟨by decide, by decide, rfl, rfl, rfl, by decide⟩

/-- Each `genVarsAux` step only appends, so the accumulator's length never
decreases. -/
theorem genVarsAux_length_mono (seed : String) (limit : Nat) (ms : List String)
    (acc : List KeywordSuggestion) :
    acc.length ≤ (genVarsAux seed limit ms acc).length := by
  induction ms generalizing acc with
  | nil => simp [genVarsAux]
  | cons m ms ih =>
    simp only [genVarsAux]
    split
    · exact le_trans (by simp) (ih _)
    · exact le_trans (by simp) (ih _)

/-- The `_generate_keyword_variations` loop produces at least
`min limit (acc.length + 2 * ms.length)` records: while short of `limit` each
modifier contributes a prefixed and a suffixed variation. -/
theorem genVarsAux_length_ge (seed : String) (limit : Nat) (ms : List String)
    (acc : List KeywordSuggestion) :
    min limit (acc.length + 2 * ms.length) ≤ (genVarsAux seed limit ms acc).length := by
  induction ms generalizing acc with
  | nil => simp [genVarsAux, min_le_right]
  | cons m ms ih =>
    simp only [genVarsAux]
    split
    case isTrue hlt =>
      have h := ih (acc ++ [preRec seed m] ++ [sufRec seed m])
      simp only [List.length_append, List.length_cons, List.length_nil,
        List.length_singleton] at h hlt ⊢
      omega
    case isFalse hge =>
      have hmono := genVarsAux_length_mono seed limit ms (acc ++ [preRec seed m])
      simp only [List.length_append, List.length_cons, List.length_nil,
        List.length_singleton] at hmono hge ⊢
      omega

/-- Everything the `_generate_keyword_variations` loop appends carries a
`generated_prefix` or `generated` source tag. -/
theorem genVarsAux_sources (seed : String) (limit : Nat) (ms : List String)
    (acc : List KeywordSuggestion) :
    ∀ x ∈ genVarsAux seed limit ms acc,
      x ∈ acc ∨ x.source = "generated_prefix" ∨ x.source = "generated" := by
  induction ms generalizing acc with
  | nil => intro x hx; exact Or.inl hx
  | cons m ms ih =>
    intro x hx
    simp only [genVarsAux] at hx
    split at hx
    · rcases ih _ x hx with hin | hs
      · simp only [List.mem_append, List.mem_singleton] at hin
        rcases hin with (hin | rfl) | rfl
        · exact Or.inl hin
        · exact Or.inr (Or.inl rfl)
        · exact Or.inr (Or.inr rfl)
      · exact Or.inr hs
    · rcases ih _ x hx with hin | hs
      · simp only [List.mem_append, List.mem_singleton] at hin
        rcases hin with hin | rfl
        · exact Or.inl hin
        · exact Or.inr (Or.inl rfl)
      · exact Or.inr hs

/-- C2: the generation safety net is unreachable - with no suggestion
providers configured, the empty pool reaches line 75 and `get_suggestions`
raises an uncaught `AttributeError` at the missing `settings.has_serper()`
instead of returning generated records.  Had control reached
`_generate_keyword_variations`, it would indeed have returned at least
`min(limit, 2 * 16)` records (the modifier list has 16 words), every one
tagged `generated` or `generated_prefix` - the claimed floor describes the
dead code faithfully, but the caller sees an exception, not records. -/
theorem c2_fallback_unreachable :
    (getSuggestions ⟨false⟩ envBare [] "seo" "en" "us" 20).2
      = .error (.attributeError "Settings object has no attribute has_serper") ∧
    modifiers.length = 16 ∧
    (∀ (seed : String) (limit : Nat),
      min limit (2 * modifiers.length)
        ≤ (generateKeywordVariations seed limit).length) ∧
    (∀ (seed : String) (limit : Nat),
      ((generateKeywordVariations seed limit).all
        (fun s => s.source == "generated" || s.source == "generated_prefix")) = true) := by
  refine ⟨rfl, rfl, ?_, ?_⟩
  · intro seed limit
    unfold generateKeywordVariations
    rw [List.length_take]
    have h := genVarsAux_length_ge seed limit (modifiers.take limit) []
    have hm : (modifiers.take limit).length = min limit modifiers.length :=
      List.length_take limit modifiers
    have h16 : modifiers.length = 16 := rfl
    simp only [List.length_nil] at h
    omega
  · intro seed limit
    rw [List.all_eq_true]
    intro s hs
    show (s.source == "generated" || s.source == "generated_prefix") = true
    have hs2 : s ∈ genVarsAux seed limit (modifiers.take limit) [] :=
      List.take_subset limit _ hs
    rcases genVarsAux_sources seed limit (modifiers.take limit) [] s hs2 with hin | h1 | h1
    · exact absurd hin (List.not_mem_nil s)
    · rw [h1]; decide
    · rw [h1]; decide

/-- On a fresh (empty) cache, `get_suggestions` reduces to the DataForSEO tier
followed by the line-75 dichotomy: crash on an empty pool, cache and return
otherwise. -/
theorem getSuggestions_fresh (cfg : SuggestConfig) (env : SuggestEnv)
    (seed lang country : String) (limit : Nat) :
    getSuggestions cfg env [] seed lang country limit
      = ((if cfg.hasDataforseo then [Tier.dataforseo] else []),
         if (pool1 cfg env seed).isEmpty then
           .error (.attributeError "Settings object has no attribute has_serper")
         else
           .ok ((pool1 cfg env seed).take limit,
             insertCache [] (cacheKey seed lang country limit) (pool1 cfg env seed))) := rfl

/-- The fallback helper's results: merged autocomplete results, topped up with
generated variations only when fewer than 10. -/
theorem fallback_results_eq (env : SuggestEnv) (seed : String) (limit : Nat) :
    (getFallbackSuggestions env seed limit).1
      = if (autoMerged env seed).length < 10 then
          ((autoMerged env seed) ++ generateKeywordVariations seed
            (limit - (autoMerged env seed).length)).take limit
        else (autoMerged env seed).take limit := by
  simp only [getFallbackSuggestions]
  split <;> rfl

/-- `List.isEmpty` in propositional form. -/
theorem listIsEmpty_iff {α : Type _} (l : List α) : l.isEmpty = true ↔ l = [] := by
  cases l <;> simp

/-- C1 amended: on a fresh cache `get_suggestions` consults at most the
DataForSEO tier.  A non-empty pool - even one smaller than the requested
limit - is cached and returned as-is, so no later tier is ever attempted and
nothing is topped up; an empty pool raises an uncaught `AttributeError` at
the missing `settings.has_serper()`, so the Serper, autocomplete and
local-generation tiers are unreachable.  Top-up with generated variations
exists only inside the unreachable `_get_fallback_suggestions` helper, and
there it triggers exactly when the merged autocomplete results number fewer
than 10 (a fixed threshold, not the requested limit). -/
theorem c1_tiering (cfg : SuggestConfig) (env : SuggestEnv) (seed lang country : String)
    (limit : Nat) :
    ((getSuggestions cfg env [] seed lang country limit).1
        = if cfg.hasDataforseo then [Tier.dataforseo] else []) ∧
    Tier.serper ∉ (getSuggestions cfg env [] seed lang country limit).1 ∧
    Tier.googleAutocomplete ∉ (getSuggestions cfg env [] seed lang country limit).1 ∧
    Tier.generation ∉ (getSuggestions cfg env [] seed lang country limit).1 ∧
    (pool1 cfg env seed ≠ [] →
      (getSuggestions cfg env [] seed lang country limit).2
        = .ok ((pool1 cfg env seed).take limit,
            insertCache [] (cacheKey seed lang country limit) (pool1 cfg env seed))) ∧
    (pool1 cfg env seed = [] →
      (getSuggestions cfg env [] seed lang country limit).2
        = .error (.attributeError "Settings object has no attribute has_serper")) ∧
    ((autoMerged env seed).length < 10 →
      (getFallbackSuggestions env seed limit).1
        = ((autoMerged env seed) ++ generateKeywordVariations seed
            (limit - (autoMerged env seed).length)).take limit) ∧
    (10 ≤ (autoMerged env seed).length →
      (getFallbackSuggestions env seed limit).1
        = (autoMerged env seed).take limit) := by
  refine ⟨?_, ?_, ?_, ?_, ?_, ?_, ?_, ?_⟩
  · simp only [getSuggestions_fresh]
  · simp only [getSuggestions_fresh]
    by_cases hd : cfg.hasDataforseo <;> simp [hd]
  · simp only [getSuggestions_fresh]
    by_cases hd : cfg.hasDataforseo <;> simp [hd]
  · simp only [getSuggestions_fresh]
    by_cases hd : cfg.hasDataforseo <;> simp [hd]
  · intro hne
    simp only [getSuggestions_fresh]
    rw [if_neg (fun h => hne ((listIsEmpty_iff _).mp h))]
  · intro heq
    simp only [getSuggestions_fresh]
    rw [if_pos ((listIsEmpty_iff _).mpr heq)]
  · intro hm
    rw [fallback_results_eq, if_pos hm]
  · intro hm
    rw [fallback_results_eq, if_neg (by omega)]

/-- Witness for the C1 amended theorem: with DataForSEO configured and
returning one suggestion against a 20-result request, the chain stops there,
caches the single record and returns it. -/
theorem c1_witness :
    pool1 ⟨true⟩ c1Env "seo tools" ≠ [] ∧
    (getSuggestions ⟨true⟩ c1Env [] "seo tools" "en" "us" 20).2
      = .ok ([{ keyword := "seo tools", source := "dataforseo" }],
          insertCache [] (cacheKey "seo tools" "en" "us" 20)
            [{ keyword := "seo tools", source := "dataforseo" }]) := by
  refine ⟨by decide, ?_⟩
  have h := (c1_tiering ⟨true⟩ c1Env "seo tools" "en" "us" 20).2.2.2.2.1 (by decide)
  rw [h]
  rfl

/-- C1 is false as stated: when DataForSEO yields one suggestion against a
requested limit of 20, the one-record pool is below the requested limit, yet
the caller receives exactly that one record - the free autocomplete tier
holding twelve more results is never consulted and nothing is topped up. -/
theorem c1_counterexample : ¬ claimC1 := by
  intro hc
  obtain ⟨res, cache2, heq, hlen⟩ :=
    (hc ⟨true⟩ c1Env "seo tools" "en" "us" 20).2.2.2 (by decide) (by decide)
  have hval : (getSuggestions ⟨true⟩ c1Env [] "seo tools" "en" "us" 20).2
      = .ok ([{ keyword := "seo tools", source := "dataforseo" }],
          insertCache [] (cacheKey "seo tools" "en" "us" 20)
            [{ keyword := "seo tools", source := "dataforseo" }]) := rfl
  rw [hval] at heq
  have hp := Except.ok.inj heq
  have hr : [({ keyword := "seo tools", source := "dataforseo" } : KeywordSuggestion)]
      = res := congrArg Prod.fst hp
  rw [← hr] at hlen
  exact absurd hlen (by decide)

/-- `volumeTruthy` in the amended claim's phrasing. -/
theorem volumeTruthy_eq (v : Option Int) :
    volumeTruthy v = (v.isSome && (v.getD 0 != 0)) := by
  cases v with
  | none => rfl
  | some n => by_cases h : n = 0 <;> simp [volumeTruthy, h]

/-- The amended average formula coincides with the code's computation. -/
theorem amendedClusterAvg_eq (keywords : List KeywordMetrics) (c : KeywordCluster) :
    amendedClusterAvg keywords c = clusterAvgVolume keywords c.keywords := by
  simp only [amendedClusterAvg, clusterAvgVolume, volumeTruthy_eq]

/-- Every cluster `buildCluster` returns carries the average computed by
`clusterAvgVolume` over its own `keywords` field. -/
theorem buildCluster_avg (keywords : List KeywordMetrics) (idx : Nat) (cd : Json)
    (c : KeywordCluster) (h : buildCluster keywords idx cd = .ok c) :
    c.avg_search_volume = clusterAvgVolume keywords c.keywords := by
  simp only [buildCluster, bind, Except.bind] at h
  repeat' split at h
  all_goals (cases h <;> rfl)

/-- Extends `buildCluster_avg` through the cluster loop. -/
theorem clusterLoop_avg (keywords : List KeywordMetrics) (items : List Json) :
    ∀ (idx : Nat) (cls : List KeywordCluster),
      clusterLoop keywords idx items = .ok cls →
      ∀ c ∈ cls, c.avg_search_volume = clusterAvgVolume keywords c.keywords := by
  induction items with
  | nil =>
    intro idx cls h c hc
    simp only [clusterLoop] at h
    cases h
    exact absurd hc (List.not_mem_nil c)
  | cons cd rest ih =>
    intro idx cls h c hc
    simp only [clusterLoop, bind, Except.bind] at h
    split at h
    · exact Except.noConfusion h
    · rename_i bc heqb
      split at h
      · exact Except.noConfusion h
      · rename_i tail heql
        cases h
        rcases List.mem_cons.mp hc with rfl | htail
        · exact buildCluster_avg keywords idx cd c heqb
        · exact ih (idx + 1) _ heql c htail

/-- Extends the formula through `clusterKeywordsCore`. -/
theorem clusterKeywordsCore_avg (keywords : List KeywordMetrics) (result : Json)
    (cls : List KeywordCluster) (h : clusterKeywordsCore keywords result = .ok cls) :
    ∀ c ∈ cls, c.avg_search_volume = clusterAvgVolume keywords c.keywords := by
  simp only [clusterKeywordsCore, bind, Except.bind] at h
  split at h
  · exact Except.noConfusion h
  · split at h
    · exact clusterLoop_avg keywords _ 0 cls h
    · exact Except.noConfusion h

/-- C8 amended: every cluster `cluster_keywords` produces carries, as
`avg_search_volume`, the integer (floor) mean of the volumes of exactly those
member keywords whose volume is present and non-zero, and `none` when there is
no such member. -/
theorem c8_avg_formula (jp : String → Option Json) (keywords : List KeywordMetrics)
    (reply : String) :
    ∀ c ∈ clusterKeywords jp keywords reply,
      c.avg_search_volume = amendedClusterAvg keywords c := by
  intro c hc
  rw [amendedClusterAvg_eq]
  unfold clusterKeywords at hc
  split at hc
  · exact absurd hc (List.not_mem_nil c)
  · split at hc
    · exact absurd hc (List.not_mem_nil c)
    · split at hc
      · next cls heq => exact clusterKeywordsCore_avg keywords _ cls heq c hc
      · exact absurd hc (List.not_mem_nil c)

/-- C8 is false as stated: the volumes comprehension tests Python truthiness,
so a member whose volume is known but zero is excluded — a cluster whose only
member has volume 0 gets `avg_search_volume = None` where the claim's mean
over members with a known volume prescribes `0`. -/
theorem c8_counterexample : ¬ claimC8 := by
  intro hc
  have h := hc (fun _ => some c8Json) [c8Metric] "reply"
  have havg : (clusterKeywords (fun _ => some c8Json) [c8Metric] "reply").map
      (fun c => c.avg_search_volume) = [none] := rfl
  have hkws : (clusterKeywords (fun _ => some c8Json) [c8Metric] "reply").map
      (fun c => c.keywords) = [[Json.str "alpha"]] := rfl
  cases hl : clusterKeywords (fun _ => some c8Json) [c8Metric] "reply" with
  | nil => rw [hl] at havg; exact absurd havg (by simp)
  | cons c0 tl =>
    rw [hl] at havg hkws h
    simp only [List.map_cons, List.cons.injEq] at havg hkws
    have h0 := h c0 (List.mem_cons_self c0 tl)
    have hs : specClusterAvg [c8Metric] c0 = some 0 := by
      unfold specClusterAvg
      rw [hkws.1]
      decide
    rw [hs, havg.1] at h0
    exact Option.noConfusion h0

/-- Witness for the C8 amended theorem: a cluster with one non-zero-volume
member and one volume-less member carries the floor mean of the former. -/
theorem c8_witness :
    ∃ c ∈ clusterKeywords c8wJp c8wMetrics "reply",
      c.avg_search_volume = amendedClusterAvg c8wMetrics c ∧
      c.avg_search_volume = some 10 := by
  have havg : (clusterKeywords c8wJp c8wMetrics "reply").map
      (fun c => c.avg_search_volume) = [some 10] := rfl
  cases hl : clusterKeywords c8wJp c8wMetrics "reply" with
  | nil => rw [hl] at havg; exact absurd havg (by simp)
  | cons c0 tl =>
    rw [hl] at havg
    simp only [List.map_cons, List.cons.injEq] at havg
    refine ⟨c0, List.mem_cons_self c0 tl, ?_, havg.1⟩
    have := c8_avg_formula c8wJp c8wMetrics "reply" c0 (hl ▸ List.mem_cons_self c0 tl)
    exact this

/-- Round-trip of `String.toList` and `List.asString`. -/
theorem asString_toList (s : String) : s.toList.asString = s := rfl

/-- `String.toList` distributes over append. -/
theorem toList_append (a b : String) : (a ++ b).toList = a.toList ++ b.toList := by
  cases a
  cases b
  rfl

/-- A list starts with itself. -/
theorem listStartsWith_append (pat rest : List Char) :
    listStartsWith pat (pat ++ rest) = true := by
  induction pat with
  | nil => rfl
  | cons p ps ih => simp [listStartsWith, ih]

/-- Skipping `sk.length` characters of `sk ++ rest` lands on `rest`. -/
theorem raGo_skip_append (pat sk rest : List Char) :
    raGo pat sk.length (sk ++ rest) = raGo pat 0 rest := by
  induction sk with
  | nil => rfl
  | cons c cs ih => exact ih

/-- `str.replace(pat, "")` is the identity when `pat` does not occur. -/
theorem raGo_not_contains (pat l : List Char) (h : containsPat pat l = false) :
    raGo pat 0 l = l := by
  induction l with
  | nil => rfl
  | cons c cs ih =>
    simp only [containsPat, Bool.or_eq_false_iff] at h
    simp only [raGo]
    rw [if_neg (fun hc => absurd hc.2 (by simp [h.1]))]
    rw [ih h.2]

/-- `str.replace(pat, "")` deletes a leading occurrence of `pat`. -/
theorem raGo_strip (pat rest : List Char) (hp : 0 < pat.length) :
    raGo pat 0 (pat ++ rest) = raGo pat 0 rest := by
  cases pat with
  | nil => simp at hp
  | cons p ps =>
    show raGo (p :: ps) 0 (p :: (ps ++ rest)) = _
    simp only [raGo]
    rw [if_pos ⟨hp, listStartsWith_append (p :: ps) rest⟩]
    show raGo (p :: ps) ps.length (ps ++ rest) = _
    exact raGo_skip_append (p :: ps) ps rest

/-- `takeWhile` stops exactly at the first failing character. -/
theorem takeWhile_middle {p : Char → Bool} (l1 : List Char) (c : Char) (l2 : List Char)
    (h1 : ∀ x ∈ l1, p x = true) (hc : p c = false) :
    (l1 ++ c :: l2).takeWhile p = l1 := by
  induction l1 with
  | nil => simp [List.takeWhile_cons, hc]
  | cons a as ih =>
    simp only [List.cons_append, List.takeWhile_cons, h1 a (by simp), if_true]
    rw [ih (fun x hx => h1 x (by simp [hx]))]

/-- `findIdx` finds exactly the first satisfying character. -/
theorem findIdx_middle {p : Char → Bool} (l1 : List Char) (c : Char) (l2 : List Char)
    (h1 : ∀ x ∈ l1, p x = false) (hc : p c = true) :
    List.findIdx p (l1 ++ c :: l2) = l1.length := by
  induction l1 with
  | nil => simp [List.findIdx_cons, hc]
  | cons a as ih =>
    simp only [List.cons_append, List.findIdx_cons, h1 a (by simp), cond_false,
      List.length_cons]
    rw [ih (fun x hx => h1 x (by simp [hx]))]

/-- A clean host character is not an unsafe byte. -/
theorem cleanHostChar_tab (c : Char) (h : cleanHostChar c = true) :
    (!(c == '\t' || c == '\r' || c == '\n')) = true := by
  simp only [cleanHostChar, Bool.not_eq_true', Bool.or_eq_false_iff] at h
  simp [h.1.1.2, h.1.2, h.2]

/-- A clean host character is not a netloc delimiter. -/
theorem cleanHostChar_sep (c : Char) (h : cleanHostChar c = true) :
    (!(c == '/' || c == '?' || c == '#')) = true := by
  simp only [cleanHostChar, Bool.not_eq_true', Bool.or_eq_false_iff] at h
  simp [h.1.1.1.1.1.1, h.1.1.1.1.1.2, h.1.1.1.1.2]

/-- The netloc of `https://<host>/<path>` is `<host>`, for any host free of
delimiters, brackets and unsafe bytes (models CPython's `urlsplit`). -/
theorem urlsplitNetloc_https (host path : String)
    (hclean : host.toList.all cleanHostChar = true) :
    urlsplitNetloc ("https://" ++ host ++ "/" ++ path) = .ok host := by
  have hall : ∀ x ∈ host.toList, cleanHostChar x = true := List.all_eq_true.mp hclean
  have hfhost : host.toList.filter (fun c => !(c == '\t' || c == '\r' || c == '\n'))
      = host.toList :=
    List.filter_eq_self.mpr (fun a ha => cleanHostChar_tab a (hall a ha))
  have hfilter : ("https://" ++ host ++ "/" ++ path).toList.filter
        (fun c => !(c == '\t' || c == '\r' || c == '\n'))
      = "https://".toList ++ (host.toList ++ '/' :: path.toList.filter
          (fun c => !(c == '\t' || c == '\r' || c == '\n'))) := by
    rw [toList_append, toList_append, toList_append, List.filter_append,
      List.filter_append, List.filter_append, hfhost]
    have h1 : "https://".toList.filter (fun c => !(c == '\t' || c == '\r' || c == '\n'))
        = "https://".toList := by decide
    have h2 : "/".toList.filter (fun c => !(c == '\t' || c == '\r' || c == '\n'))
        = ['/'] := by decide
    rw [h1, h2]
    simp [List.append_assoc]
  simp only [urlsplitNetloc, splitSchemeRest]
  rw [hfilter]
  set pl := path.toList.filter (fun c => !(c == '\t' || c == '\r' || c == '\n')) with hpl
  set L := "https://".toList ++ (host.toList ++ '/' :: pl) with hL
  have hshape5 : L = ['h', 't', 't', 'p', 's'] ++ (':' :: ('/' :: '/' ::
      (host.toList ++ '/' :: pl))) := rfl
  have hi : List.findIdx (fun c => c == ':') L = 5 := by
    rw [hshape5]
    exact findIdx_middle ['h', 't', 't', 'p', 's'] ':' _ (by decide) (by decide)
  rw [hi]
  have hlen : 5 < L.length := by
    rw [hshape5]
    simp [List.length_append]
  have htake : List.take 5 L = ['h', 't', 't', 'p', 's'] := by
    rw [hshape5]
    rw [show (5 : Nat) = (['h', 't', 't', 'p', 's'] : List Char).length from rfl]
    exact List.take_left _ _
  have hhead : L.head? = some 'h' := by rw [hshape5]; rfl
  have hcond : 5 < L.length ∧ 0 < 5 ∧ (List.take 5 L).all schemeChar = true ∧
      (match L.head? with | some c => c.isAlpha | none => false) = true := by
    refine ⟨hlen, by norm_num, by rw [htake]; decide, ?_⟩
    rw [hhead]
    decide
  rw [if_pos hcond]
  have hdrop : List.drop (5 + 1) L = '/' :: '/' :: (host.toList ++ '/' :: pl) := by
    rw [hshape5]
    rfl
  rw [hdrop]
  have hsw : listStartsWith ['/', '/'] ('/' :: '/' :: (host.toList ++ '/' :: pl)) = true := by
    simp [listStartsWith]
  rw [hsw]
  have hd2 : List.drop 2 ('/' :: '/' :: (host.toList ++ '/' :: pl))
      = host.toList ++ '/' :: pl := rfl
  rw [hd2]
  have htw : List.takeWhile (fun c => !(c == '/' || c == '?' || c == '#'))
      (host.toList ++ '/' :: pl) = host.toList :=
    takeWhile_middle host.toList '/' pl
      (fun x hx => cleanHostChar_sep x (hall x hx)) (by decide)
  rw [htw]
  have hbl : host.toList.any (fun x => x == '[') = false := by
    by_contra hx
    rw [Bool.not_eq_false] at hx
    obtain ⟨x, hmem, hbeq⟩ := List.any_eq_true.mp hx
    have hcx := hall x hmem
    rw [show x = '[' from by simpa using hbeq] at hcx
    exact absurd hcx (by decide)
  have hbr : host.toList.any (fun x => x == ']') = false := by
    by_contra hx
    rw [Bool.not_eq_false] at hx
    obtain ⟨x, hmem, hbeq⟩ := List.any_eq_true.mp hx
    have hcx := hall x hmem
    rw [show x = ']' from by simpa using hbeq] at hcx
    exact absurd hcx (by decide)
  rw [hbl, hbr]
  simp
  exact asString_toList host

/-- C9 is false as stated: `replace("www.", "")` removes every occurrence of
the substring, not only a leading prefix — on
`https://foo.www.example.com/page` the code yields `foo.example.com` while a
leading-prefix strip would leave `foo.www.example.com` unchanged. -/
theorem c9_counterexample : ¬ claimC9 := by
  intro hc
  exact absurd (hc "https://foo.www.example.com/page") (by decide)

/-- C9 amended: `_extract_domain` returns the URL's netloc with every
occurrence of the substring `www.` removed; when the only occurrence is a
leading one (or there is none) this coincides with the claimed leading-prefix
strip; a malformed URL (unbalanced bracket) yields the empty string, and the
function is total, so it never raises. -/
theorem c9_www_removal (host path r : String)
    (hclean : host.toList.all cleanHostChar = true) :
    extractDomain ("https://" ++ host ++ "/" ++ path) = pyReplaceAll host "www." ∧
    (host = "www." ++ r → containsPat ("www.".toList) r.toList = false →
      extractDomain ("https://" ++ host ++ "/" ++ path) = r) ∧
    (containsPat ("www.".toList) host.toList = false →
      extractDomain ("https://" ++ host ++ "/" ++ path) = host) ∧
    extractDomain "https://www.example.com/page" = "example.com" ∧
    extractDomain "http://[" = "" := by
  have h1 : extractDomain ("https://" ++ host ++ "/" ++ path) = pyReplaceAll host "www." := by
    unfold extractDomain
    rw [urlsplitNetloc_https host path hclean]
  refine ⟨h1, ?_, ?_, by decide, by decide⟩
  · intro hwr hnoc
    rw [h1, hwr]
    unfold pyReplaceAll
    rw [toList_append, raGo_strip _ _ (by decide), raGo_not_contains _ _ hnoc,
      asString_toList]
  · intro hnoc
    rw [h1]
    unfold pyReplaceAll
    rw [raGo_not_contains _ _ hnoc, asString_toList]

/-- Witness for the C9 amended theorem at the spec's own example URL. -/
theorem c9_witness :
    extractDomain "https://www.example.com/page" = "example.com" := by
  have h := (c9_www_removal "www.example.com" "page" "example.com" (by decide)).2.1
  exact h rfl (by decide)
